import Mathlib

/-!
Shallow embedding of the external-mailbox synchronization widgets of the
ragflow front-end (status poller, sync trigger client, sync cancel client,
and toggle/state-machine logic), together with theorems settling the
specification claims about them.

Three widget variants carry sync logic in the source tree:
* `OutlookMailSync` — src/unnamed/part_000 (mail-folder variant, `/v1/api/` paths,
  404-aware status poller, manual trigger only);
* `OneDriveSync` — second component of src/web/src/components/outlook-mail-sync.tsx
  (cloud-drive variant, `/v1/api/` paths, auto-trigger on enable);
* `OneDriveSyncV1` — src/unnamed/part_001 (cloud-drive variant, `/api/` paths,
  parameterless trigger, auto-trigger on enable).
-/

namespace RagflowSync

/-- Component-local sync state: the `syncing` and `syncType` React state pair. -/
structure SyncState where
  syncing : Bool
  syncType : Option String
deriving DecidableEq, Repr

/-- Payload of the status endpoint: `\x7b is_syncing, sync_type \x7d`. -/
structure StatusPayload where
  is_syncing : Bool
  sync_type : String
deriving DecidableEq, Repr

/-- Outcome of an awaited `request(...)` call as seen by the calling code:
either the resolved response envelope (`data` possibly absent/falsy, plus an
optional `message`), or a thrown error carrying the HTTP status of the
response when one exists (`none` models a pure network failure). -/
inductive HttpOutcome (α : Type) where
  | success (data : Option α) (message : Option String)
  | thrown (status : Option Nat)
deriving DecidableEq, Repr

/-- A value in a JSON request body: a string, or JavaScript `undefined`
(a key written in the object literal whose value is undefined). -/
inductive BodyVal where
  | str (s : String)
  | undef
deriving DecidableEq, Repr

/-- An HTTP request issued through the `request` utility. -/
structure HttpRequest where
  method : String
  url : String
  body : List (String × BodyVal)
deriving DecidableEq, Repr

/-- A user-facing notification (`message.success` / `message.error`). -/
inductive Notice where
  | success (msg : String)
  | error (msg : String)
deriving DecidableEq, Repr

/-- Result of running one operation: the new component state, the HTTP
requests it issued, and the notifications it showed. Console logging is
not tracked (it is not user-visible). -/
structure OpResult where
  state : SyncState
  requests : List HttpRequest
  notices : List Notice
deriving DecidableEq, Repr

/-- The translator `t`: modelled as the identity on translation keys. -/
def t (key : String) : String := key

/-- JavaScript `a || b` for an optional string `a` (absent and empty are falsy). -/
def orFallback (msg : Option String) (fallback : String) : String :=
  match msg with
  | some m => if m = "" then fallback else m
  | none => fallback

/-- JavaScript truthiness of an optional string field value
(`undefined` and the empty string are falsy). -/
def strTruthy : Option String → Bool
  | none => false
  | some s => !(s.isEmpty)

/-- Convert an optional string field value to the body value written by an
object literal such as `email: email`. -/
def toBodyVal : Option String → BodyVal
  | none => BodyVal.undef
  | some s => BodyVal.str s

/-- Observable outcome of firing the toggle's `onChange` handler: whether the
blocking `window.confirm` prompt was shown, the HTTP requests and notices
produced by an invoked `cancelSync`, whether `setFieldsValue` reverted the
toggle to enabled, and the delay (ms) of a `setTimeout`-scheduled
`triggerSync` call, when one was scheduled. -/
structure ToggleResult where
  confirmShown : Bool
  cancelRequests : List HttpRequest
  cancelNotices : List Notice
  toggleRevertedOn : Bool
  scheduledTriggerDelay : Option Nat
deriving DecidableEq, Repr

/-- Which action button the widget renders inside the enabled form section. -/
inductive ActionButton where
  | cancelSyncBtn
  | syncNowBtn
deriving DecidableEq, Repr

/-- The state-dependent parts of the rendered widget: whether the spinning
sync icon is shown next to the toggle label, and which action button (if
any) is rendered. -/
structure RenderedUI where
  spinnerShown : Bool
  action : Option ActionButton
deriving DecidableEq, Repr

namespace OutlookMailSync

/-- `checkSyncStatus` of the OutlookMailSync widget (src/unnamed/part_000,
lines 30–53): with no `kbId` it returns without a request; otherwise it GETs
`/v1/api/kb/sync_status`, maps a truthy `is_syncing` payload to
`(syncing := true, syncType := sync_type)`, any other resolved response to
`(false, none)`, a thrown 404 to `(false, none)`, and any other thrown error
leaves the state unchanged. It never shows a notification. -/
def checkSyncStatus (kbId : Option String) (s : SyncState)
    (resp : HttpOutcome StatusPayload) : OpResult :=
  match kbId with
  | none => ⟨s, [], []⟩
  | some kb =>
    let req : HttpRequest := ⟨"GET", "/v1/api/kb/sync_status?kb_id=" ++ kb, []⟩
    match resp with
    | HttpOutcome.success data _ =>
      match data with
      | some p =>
        if p.is_syncing then ⟨⟨true, some p.sync_type⟩, [req], []⟩
        else ⟨⟨false, none⟩, [req], []⟩
      | none => ⟨⟨false, none⟩, [req], []⟩
    | HttpOutcome.thrown status =>
      if status = some 404 then ⟨⟨false, none⟩, [req], []⟩
      else ⟨s, [req], []⟩

/-- `triggerSync` of the OutlookMailSync widget (src/unnamed/part_000,
lines 56–84): with no `kbId` it returns silently; otherwise it POSTs
`/v1/api/kb/trigger_sync` with body `kb_id`, `sync_type = "outlook"`,
`email`, `folder_name`; a truthy `res.data` shows the success notice and
optimistically sets `(true, some "outlook")`; a falsy `res.data` shows
`res.message || t('syncFailed')`; a thrown error shows `t('syncFailed')`;
in both failure cases the state is unchanged. -/
def triggerSync (kbId : Option String) (email folder_name : Option String)
    (s : SyncState) (resp : HttpOutcome Bool) : OpResult :=
  match kbId with
  | none => ⟨s, [], []⟩
  | some kb =>
    let req : HttpRequest :=
      ⟨"POST", "/v1/api/kb/trigger_sync",
        [("kb_id", BodyVal.str kb), ("sync_type", BodyVal.str "outlook"),
         ("email", toBodyVal email), ("folder_name", toBodyVal folder_name)]⟩
    match resp with
    | HttpOutcome.success data msg =>
      if data = some true then
        ⟨⟨true, some "outlook"⟩, [req], [Notice.success (t "syncStarted")]⟩
      else
        ⟨s, [req], [Notice.error (orFallback msg (t "syncFailed"))]⟩
    | HttpOutcome.thrown _ =>
      ⟨s, [req], [Notice.error (t "syncFailed")]⟩

/-- `cancelSync` of the OutlookMailSync widget (src/unnamed/part_000,
lines 87–107): with no `kbId` it returns silently; otherwise it POSTs
`/v1/api/kb/cancel_sync` with body `kb_id`; success shows the cancelled
notice, failure shows `res.message || t('cancelFailed')` or the fallback;
the local `syncing`/`syncType` state is never modified. -/
def cancelSync (kbId : Option String) (s : SyncState)
    (resp : HttpOutcome Bool) : OpResult :=
  match kbId with
  | none => ⟨s, [], []⟩
  | some kb =>
    let req : HttpRequest := ⟨"POST", "/v1/api/kb/cancel_sync", [("kb_id", BodyVal.str kb)]⟩
    match resp with
    | HttpOutcome.success data msg =>
      if data = some true then
        ⟨s, [req], [Notice.success (t "syncCancelled")]⟩
      else
        ⟨s, [req], [Notice.error (orFallback msg (t "cancelFailed"))]⟩
    | HttpOutcome.thrown _ =>
      ⟨s, [req], [Notice.error (t "cancelFailed")]⟩

/-- The "Sync Now" button's onClick (src/unnamed/part_000, lines 217–238):
reads the current `outlook_email` and `outlook_folder` form values and calls
`triggerSync` with them unconditionally — no form validation step runs in
the click handler. -/
def syncNowClick (kbId : Option String) (formEmail formFolder : Option String)
    (s : SyncState) (resp : HttpOutcome Bool) : OpResult :=
  triggerSync kbId formEmail formFolder s resp

/-- `handleSyncChange` of the OutlookMailSync widget (src/unnamed/part_000,
lines 130–147): switching the toggle off while `syncing` and
`syncType === 'outlook'` shows a blocking confirmation; confirming invokes
`cancelSync`, declining reverts the toggle to enabled and returns. No other
case does anything, and this variant never auto-triggers a sync
(the auto-sync logic was removed; sync starts only via the button). -/
def handleSyncChange (kbId : Option String) (s : SyncState) (checked : Bool)
    (confirmAnswer : Bool) (cancelResp : HttpOutcome Bool) : ToggleResult :=
  if checked = false ∧ s.syncing = true ∧ s.syncType = some "outlook" then
    if confirmAnswer then
      let c := cancelSync kbId s cancelResp
      ⟨true, c.requests, c.notices, false, none⟩
    else
      ⟨true, [], [], true, none⟩
  else
    ⟨false, [], [], false, none⟩

/-- The render function of the OutlookMailSync widget (src/unnamed/part_000,
lines 149–242): the spinning icon is shown next to the toggle label iff
`syncing && syncType === 'outlook'`; when the toggle form value is enabled
the action button is Cancel under the same condition and Sync Now otherwise;
with the toggle disabled no action button is rendered. -/
def render (syncEnabled : Bool) (s : SyncState) : RenderedUI :=
  let active := s.syncing && decide (s.syncType = some "outlook")
  ⟨active,
   if syncEnabled then
     (if active then some ActionButton.cancelSyncBtn else some ActionButton.syncNowBtn)
   else none⟩

end OutlookMailSync

namespace OneDriveSync

/-- `checkSyncStatus` of the OneDriveSync widget
(src/web/src/components/outlook-mail-sync.tsx, lines 108–127): same request
and success handling as the Outlook variant, but the catch block only logs —
every thrown error, 404 included, leaves the prior state unchanged. -/
def checkSyncStatus (kbId : Option String) (s : SyncState)
    (resp : HttpOutcome StatusPayload) : OpResult :=
  match kbId with
  | none => ⟨s, [], []⟩
  | some kb =>
    let req : HttpRequest := ⟨"GET", "/v1/api/kb/sync_status?kb_id=" ++ kb, []⟩
    match resp with
    | HttpOutcome.success data _ =>
      match data with
      | some p =>
        if p.is_syncing then ⟨⟨true, some p.sync_type⟩, [req], []⟩
        else ⟨⟨false, none⟩, [req], []⟩
      | none => ⟨⟨false, none⟩, [req], []⟩
    | HttpOutcome.thrown _ => ⟨s, [req], []⟩

/-- `triggerSync` of the OneDriveSync widget
(src/web/src/components/outlook-mail-sync.tsx, lines 130–159): POSTs
`/v1/api/kb/trigger_sync` with body `kb_id`, `sync_type = "onedrive"`,
`email`, `folder_path`; success/failure handling mirrors the Outlook
variant with the optimistic state `(true, some "onedrive")`. -/
def triggerSync (kbId : Option String) (email folder_path : Option String)
    (s : SyncState) (resp : HttpOutcome Bool) : OpResult :=
  match kbId with
  | none => ⟨s, [], []⟩
  | some kb =>
    let req : HttpRequest :=
      ⟨"POST", "/v1/api/kb/trigger_sync",
        [("kb_id", BodyVal.str kb), ("sync_type", BodyVal.str "onedrive"),
         ("email", toBodyVal email), ("folder_path", toBodyVal folder_path)]⟩
    match resp with
    | HttpOutcome.success data msg =>
      if data = some true then
        ⟨⟨true, some "onedrive"⟩, [req], [Notice.success (t "syncStarted")]⟩
      else
        ⟨s, [req], [Notice.error (orFallback msg (t "syncFailed"))]⟩
    | HttpOutcome.thrown _ =>
      ⟨s, [req], [Notice.error (t "syncFailed")]⟩

/-- `cancelSync` of the OneDriveSync widget
(src/web/src/components/outlook-mail-sync.tsx, lines 162–182): identical to
the Outlook variant's cancel client; never modifies `syncing`/`syncType`. -/
def cancelSync (kbId : Option String) (s : SyncState)
    (resp : HttpOutcome Bool) : OpResult :=
  match kbId with
  | none => ⟨s, [], []⟩
  | some kb =>
    let req : HttpRequest := ⟨"POST", "/v1/api/kb/cancel_sync", [("kb_id", BodyVal.str kb)]⟩
    match resp with
    | HttpOutcome.success data msg =>
      if data = some true then
        ⟨s, [req], [Notice.success (t "syncCancelled")]⟩
      else
        ⟨s, [req], [Notice.error (orFallback msg (t "cancelFailed"))]⟩
    | HttpOutcome.thrown _ =>
      ⟨s, [req], [Notice.error (t "cancelFailed")]⟩

/-- `handleSyncChange` of the OneDriveSync widget
(src/web/src/components/outlook-mail-sync.tsx, lines 203–234): the
confirm-cancel branch mirrors the Outlook variant with tag `'onedrive'`
(declining returns early); additionally, when the toggle goes from disabled
to enabled (`checked && !syncEnabled`) and the `onedrive_email` form value is
truthy, a `triggerSync` call is scheduled with `setTimeout(..., 1000)`. -/
def handleSyncChange (kbId : Option String) (s : SyncState) (syncEnabled : Bool)
    (email : Option String) (checked : Bool) (confirmAnswer : Bool)
    (cancelResp : HttpOutcome Bool) : ToggleResult :=
  let autoDelay : Option Nat :=
    if checked = true ∧ syncEnabled = false ∧ strTruthy email = true then some 1000 else none
  if checked = false ∧ s.syncing = true ∧ s.syncType = some "onedrive" then
    if confirmAnswer then
      let c := cancelSync kbId s cancelResp
      ⟨true, c.requests, c.notices, false, autoDelay⟩
    else
      ⟨true, [], [], true, none⟩
  else
    ⟨false, [], [], false, autoDelay⟩

/-- The render function of the OneDriveSync widget
(src/web/src/components/outlook-mail-sync.tsx, lines 236–328): the spinning
icon is shown iff `syncing && syncType === 'onedrive'`; when the toggle form
value is enabled the action button is Cancel under the same condition and
Sync Now otherwise. -/
def render (syncEnabled : Bool) (s : SyncState) : RenderedUI :=
  let active := s.syncing && decide (s.syncType = some "onedrive")
  ⟨active,
   if syncEnabled then
     (if active then some ActionButton.cancelSyncBtn else some ActionButton.syncNowBtn)
   else none⟩

end OneDriveSync

namespace OneDriveSyncV1

/-- `checkSyncStatus` of the part_001 OneDriveSync widget
(src/unnamed/part_001, lines 29–44): GETs `/api/kb/sync_status`; the catch
block only logs, so every thrown error leaves the prior state unchanged. -/
def checkSyncStatus (kbId : Option String) (s : SyncState)
    (resp : HttpOutcome StatusPayload) : OpResult :=
  match kbId with
  | none => ⟨s, [], []⟩
  | some kb =>
    let req : HttpRequest := ⟨"GET", "/api/kb/sync_status?kb_id=" ++ kb, []⟩
    match resp with
    | HttpOutcome.success data _ =>
      match data with
      | some p =>
        if p.is_syncing then ⟨⟨true, some p.sync_type⟩, [req], []⟩
        else ⟨⟨false, none⟩, [req], []⟩
      | none => ⟨⟨false, none⟩, [req], []⟩
    | HttpOutcome.thrown _ => ⟨s, [req], []⟩

/-- `triggerSync` of the part_001 OneDriveSync widget (src/unnamed/part_001,
lines 47–70): takes no parameters and POSTs `/api/kb/trigger_sync` with body
`kb_id` and `sync_type = "onedrive"` only. -/
def triggerSync (kbId : Option String) (s : SyncState)
    (resp : HttpOutcome Bool) : OpResult :=
  match kbId with
  | none => ⟨s, [], []⟩
  | some kb =>
    let req : HttpRequest :=
      ⟨"POST", "/api/kb/trigger_sync",
        [("kb_id", BodyVal.str kb), ("sync_type", BodyVal.str "onedrive")]⟩
    match resp with
    | HttpOutcome.success data msg =>
      if data = some true then
        ⟨⟨true, some "onedrive"⟩, [req], [Notice.success (t "syncStarted")]⟩
      else
        ⟨s, [req], [Notice.error (orFallback msg (t "syncFailed"))]⟩
    | HttpOutcome.thrown _ =>
      ⟨s, [req], [Notice.error (t "syncFailed")]⟩

/-- `cancelSync` of the part_001 OneDriveSync widget (src/unnamed/part_001,
lines 73–93): POSTs `/api/kb/cancel_sync` with body `kb_id`; never modifies
`syncing`/`syncType`. -/
def cancelSync (kbId : Option String) (s : SyncState)
    (resp : HttpOutcome Bool) : OpResult :=
  match kbId with
  | none => ⟨s, [], []⟩
  | some kb =>
    let req : HttpRequest := ⟨"POST", "/api/kb/cancel_sync", [("kb_id", BodyVal.str kb)]⟩
    match resp with
    | HttpOutcome.success data msg =>
      if data = some true then
        ⟨s, [req], [Notice.success (t "syncCancelled")]⟩
      else
        ⟨s, [req], [Notice.error (orFallback msg (t "cancelFailed"))]⟩
    | HttpOutcome.thrown _ =>
      ⟨s, [req], [Notice.error (t "cancelFailed")]⟩

/-- `handleSyncChange` of the part_001 OneDriveSync widget
(src/unnamed/part_001, lines 114–139): same shape as the other cloud-drive
variant; the scheduled call is the parameterless `triggerSync`. -/
def handleSyncChange (kbId : Option String) (s : SyncState) (syncEnabled : Bool)
    (email : Option String) (checked : Bool) (confirmAnswer : Bool)
    (cancelResp : HttpOutcome Bool) : ToggleResult :=
  let autoDelay : Option Nat :=
    if checked = true ∧ syncEnabled = false ∧ strTruthy email = true then some 1000 else none
  if checked = false ∧ s.syncing = true ∧ s.syncType = some "onedrive" then
    if confirmAnswer then
      let c := cancelSync kbId s cancelResp
      ⟨true, c.requests, c.notices, false, autoDelay⟩
    else
      ⟨true, [], [], true, none⟩
  else
    ⟨false, [], [], false, autoDelay⟩

end OneDriveSyncV1

/-- Split a character list at every occurrence of a separator character. -/
def splitOnChar (sep : Char) : List Char → List (List Char)
  | [] => [[]]
  | c :: cs =>
    let r := splitOnChar sep cs
    if c = sep then [] :: r
    else
      match r with
      | [] => [[c]]
      | h :: tr => (c :: h) :: tr

/-- Modelled from the spec: the email-format pattern enforced by the form
rule of type email on the email field. The pattern itself lives in the form
library's validator, outside this repository; per the spec the field "must
match an email-format pattern", modelled here as: exactly one at-sign
separating a non-empty local part from a non-empty domain containing a dot,
with no spaces. -/
def emailFormatValid (e : String) : Bool :=
  match splitOnChar '@' e.data with
  | [l, d] =>
    !l.isEmpty && !d.isEmpty && d.contains '.' && !((l ++ d).contains ' ')
  | _ => false

/-- State of the polling effect's runtime resources: the knowledge-base id
captured by the registered interval timer when one is active, whether a
timer was ever registered, and the number of status requests issued so far. -/
structure PollerM where
  timerKb : Option String
  everTimer : Bool
  reqs : Nat
deriving DecidableEq, Repr

/-- Number of HTTP requests one `checkSyncStatus` call issues for a given
`kbId` (independent of state and response; see `checkStatus_reqCount`). -/
def statusRequests (kbId : Option String) : Nat :=
  (OutlookMailSync.checkSyncStatus kbId ⟨false, none⟩ (HttpOutcome.thrown none)).requests.length

/-- Events in the life of the polling effect (src/unnamed/part_000,
lines 17–27): the effect body running (on mount or when `kbId` changes),
the cleanup running (on unmount or before a re-run), and an interval tick. -/
inductive PollEv where
  | setup (kbId : Option String)
  | cleanup
  | tick
deriving DecidableEq, Repr

/-- One step of the polling effect's runtime: `setup` with an absent id
returns before registering anything; `setup` with an id present runs an
immediate `checkSyncStatus` and registers the 5-second interval; `cleanup`
is `clearInterval`; a `tick` runs `checkSyncStatus` iff a timer is
registered, and does nothing once the timer is cleared. -/
def pollStep (m : PollerM) : PollEv → PollerM
  | PollEv.setup none => m
  | PollEv.setup (some kb) =>
    ⟨some kb, true, m.reqs + statusRequests (some kb)⟩
  | PollEv.cleanup => ⟨none, m.everTimer, m.reqs⟩
  | PollEv.tick =>
    match m.timerKb with
    | none => m
    | some kb => ⟨m.timerKb, m.everTimer, m.reqs + statusRequests (some kb)⟩

/-- Run the polling effect's runtime over a list of events from the initial
state (no timer, no requests). -/
def pollRun (evs : List PollEv) : PollerM :=
  evs.foldl pollStep ⟨none, false, 0⟩

/-- The request count of a status check depends only on the presence of
`kbId`, not on the prior state or the response. -/
theorem checkStatus_reqCount (kbId : Option String) (s : SyncState)
    (resp : HttpOutcome StatusPayload) :
    (OutlookMailSync.checkSyncStatus kbId s resp).requests.length = statusRequests kbId := by
  cases kbId with
  | none => cases resp <;> rfl
  | some kb =>
    cases resp with
    | success data msg =>
      cases data with
      | none => rfl
      | some p =>
        simp only [OutlookMailSync.checkSyncStatus]
        split <;> rfl
    | thrown st =>
      simp only [OutlookMailSync.checkSyncStatus]
      split <;> rfl

/-- `cancelSync` of the Outlook variant always issues exactly the one cancel
POST when the id is present. -/
theorem cancelOutlook_requests (kb : String) (s : SyncState) (resp : HttpOutcome Bool) :
    (OutlookMailSync.cancelSync (some kb) s resp).requests =
      [⟨"POST", "/v1/api/kb/cancel_sync", [("kb_id", BodyVal.str kb)]⟩] := by
  cases resp with
  | success data msg =>
    simp only [OutlookMailSync.cancelSync]
    split <;> rfl
  | thrown st => rfl

/-- `cancelSync` of the web OneDrive variant always issues exactly the one
cancel POST when the id is present. -/
theorem cancelOneDrive_requests (kb : String) (s : SyncState) (resp : HttpOutcome Bool) :
    (OneDriveSync.cancelSync (some kb) s resp).requests =
      [⟨"POST", "/v1/api/kb/cancel_sync", [("kb_id", BodyVal.str kb)]⟩] := by
  cases resp with
  | success data msg =>
    simp only [OneDriveSync.cancelSync]
    split <;> rfl
  | thrown st => rfl

/-- `cancelSync` of the part_001 OneDrive variant always issues exactly the
one cancel POST when the id is present. -/
theorem cancelV1_requests (kb : String) (s : SyncState) (resp : HttpOutcome Bool) :
    (OneDriveSyncV1.cancelSync (some kb) s resp).requests =
      [⟨"POST", "/api/kb/cancel_sync", [("kb_id", BodyVal.str kb)]⟩] := by
  cases resp with
  | success data msg =>
    simp only [OneDriveSyncV1.cancelSync]
    split <;> rfl
  | thrown st => rfl

/-- A tick with no registered timer leaves the poller runtime unchanged. -/
theorem pollStep_tick_clear (e : Bool) (r : Nat) :
    pollStep ⟨none, e, r⟩ PollEv.tick = ⟨none, e, r⟩ := rfl

/-- Folding any number of ticks with no registered timer changes nothing. -/
theorem pollFold_tick_clear (e : Bool) (r : Nat) (n : Nat) :
    List.foldl pollStep ⟨none, e, r⟩ (List.replicate n PollEv.tick) = ⟨none, e, r⟩ := by
  induction n with
  | zero => rfl
  | succ k ih => simpa [List.replicate, List.foldl] using ih

/-- Folding `n` ticks with a registered timer issues exactly `n` further
status requests and keeps the timer registered. -/
theorem pollFold_tick_active (kb : String) (e : Bool) (r : Nat) (n : Nat) :
    List.foldl pollStep ⟨some kb, e, r⟩ (List.replicate n PollEv.tick) =
      ⟨some kb, e, r + n⟩ := by
  induction n generalizing r with
  | zero => rfl
  | succ k ih =>
    have step : pollStep ⟨some kb, e, r⟩ PollEv.tick = ⟨some kb, e, r + 1⟩ := rfl
    calc List.foldl pollStep ⟨some kb, e, r⟩ (List.replicate (k + 1) PollEv.tick)
        = List.foldl pollStep ⟨some kb, e, r + 1⟩ (List.replicate k PollEv.tick) := by
          simp [List.replicate, List.foldl, step]
      _ = ⟨some kb, e, r + 1 + k⟩ := ih (r + 1)
      _ = ⟨some kb, e, r + (k + 1)⟩ := by ring_nf

end RagflowSync

namespace RagflowSync

/-- Claim C7: with `kb_id` absent, every sync operation of every widget
variant is a silent no-op: it issues no HTTP request, shows no notification,
and leaves the `syncing`/`syncType` state unchanged, for every possible
response environment and form input. -/
theorem claim_C7 (s : SyncState) (rs : HttpOutcome StatusPayload)
    (rb rb' : HttpOutcome Bool) (email folder : Option String) :
    OutlookMailSync.checkSyncStatus none s rs = ⟨s, [], []⟩ ∧
    OutlookMailSync.triggerSync none email folder s rb = ⟨s, [], []⟩ ∧
    OutlookMailSync.cancelSync none s rb' = ⟨s, [], []⟩ ∧
    OneDriveSync.checkSyncStatus none s rs = ⟨s, [], []⟩ ∧
    OneDriveSync.triggerSync none email folder s rb = ⟨s, [], []⟩ ∧
    OneDriveSync.cancelSync none s rb' = ⟨s, [], []⟩ ∧
    OneDriveSyncV1.checkSyncStatus none s rs = ⟨s, [], []⟩ ∧
    OneDriveSyncV1.triggerSync none s rb = ⟨s, [], []⟩ ∧
    OneDriveSyncV1.cancelSync none s rb' = ⟨s, [], []⟩ :=
  ⟨rfl, rfl, rfl, rfl, rfl, rfl, rfl, rfl, rfl⟩

/-- Claim C9: on the status response `is_syncing = true, sync_type =
"outlook"`, the widget whose tag is `outlook` renders the spinner and the
Cancel action, while a sibling cloud-drive widget fed the same response
renders no spinner and the Sync Now action (its render guard compares
`syncType` against its own tag `onedrive`). -/
theorem claim_C9 (kb : String) (s : SyncState) :
    OutlookMailSync.render true
        (OutlookMailSync.checkSyncStatus (some kb) s
          (HttpOutcome.success (some ⟨true, "outlook"⟩) none)).state =
      ⟨true, some ActionButton.cancelSyncBtn⟩ ∧
    OneDriveSync.render true
        (OneDriveSync.checkSyncStatus (some kb) s
          (HttpOutcome.success (some ⟨true, "outlook"⟩) none)).state =
      ⟨false, some ActionButton.syncNowBtn⟩ := by
  constructor <;> rfl

/-- Claim C3: with `kb_id` present, a trigger call issues exactly one POST
to the trigger endpoint whose body holds `kb_id`, the widget's provider tag
as `sync_type`, and the email and folder field values; a truthy `res.data`
yields the success notice and the optimistic state `syncing = true`,
`syncType =` provider tag; a falsy `res.data` yields an error notice using
the backend message when available (else the generic fallback) with the
state unchanged; a thrown error yields the generic error notice with the
state unchanged. Stated for the mail-folder (outlook) variant and the
cloud-drive (onedrive) variant of the components file. -/
theorem claim_C3 (kb : String) (email folder : Option String) (s : SyncState)
    (data : Option Bool) (msg : Option String) (st : Option Nat) :
    (OutlookMailSync.triggerSync (some kb) email folder s (HttpOutcome.success data msg) =
      if data = some true then
        ⟨⟨true, some "outlook"⟩,
         [⟨"POST", "/v1/api/kb/trigger_sync",
           [("kb_id", BodyVal.str kb), ("sync_type", BodyVal.str "outlook"),
            ("email", toBodyVal email), ("folder_name", toBodyVal folder)]⟩],
         [Notice.success (t "syncStarted")]⟩
      else
        ⟨s,
         [⟨"POST", "/v1/api/kb/trigger_sync",
           [("kb_id", BodyVal.str kb), ("sync_type", BodyVal.str "outlook"),
            ("email", toBodyVal email), ("folder_name", toBodyVal folder)]⟩],
         [Notice.error (orFallback msg (t "syncFailed"))]⟩) ∧
    (OutlookMailSync.triggerSync (some kb) email folder s (HttpOutcome.thrown st) =
      ⟨s,
       [⟨"POST", "/v1/api/kb/trigger_sync",
         [("kb_id", BodyVal.str kb), ("sync_type", BodyVal.str "outlook"),
          ("email", toBodyVal email), ("folder_name", toBodyVal folder)]⟩],
       [Notice.error (t "syncFailed")]⟩) ∧
    (OneDriveSync.triggerSync (some kb) email folder s (HttpOutcome.success data msg) =
      if data = some true then
        ⟨⟨true, some "onedrive"⟩,
         [⟨"POST", "/v1/api/kb/trigger_sync",
           [("kb_id", BodyVal.str kb), ("sync_type", BodyVal.str "onedrive"),
            ("email", toBodyVal email), ("folder_path", toBodyVal folder)]⟩],
         [Notice.success (t "syncStarted")]⟩
      else
        ⟨s,
         [⟨"POST", "/v1/api/kb/trigger_sync",
           [("kb_id", BodyVal.str kb), ("sync_type", BodyVal.str "onedrive"),
            ("email", toBodyVal email), ("folder_path", toBodyVal folder)]⟩],
         [Notice.error (orFallback msg (t "syncFailed"))]⟩) ∧
    (OneDriveSync.triggerSync (some kb) email folder s (HttpOutcome.thrown st) =
      ⟨s,
       [⟨"POST", "/v1/api/kb/trigger_sync",
         [("kb_id", BodyVal.str kb), ("sync_type", BodyVal.str "onedrive"),
          ("email", toBodyVal email), ("folder_path", toBodyVal folder)]⟩],
       [Notice.error (t "syncFailed")]⟩) :=
  ⟨rfl, rfl, rfl, rfl⟩

/-- Claim C5: with `kb_id` present, a cancel call never modifies the local
`syncing`/`syncType` state, in every variant and for every outcome; in every
variant a truthy `res.data` shows the cancelled notice, a falsy one shows
the backend message or the fallback, and a thrown error shows the
fallback. -/
theorem claim_C5 (kb : String) (s : SyncState) (data : Option Bool)
    (msg : Option String) (st : Option Nat) :
    (OutlookMailSync.cancelSync (some kb) s (HttpOutcome.success data msg)).state = s ∧
    (OutlookMailSync.cancelSync (some kb) s (HttpOutcome.thrown st)).state = s ∧
    (OneDriveSync.cancelSync (some kb) s (HttpOutcome.success data msg)).state = s ∧
    (OneDriveSync.cancelSync (some kb) s (HttpOutcome.thrown st)).state = s ∧
    (OneDriveSyncV1.cancelSync (some kb) s (HttpOutcome.success data msg)).state = s ∧
    (OneDriveSyncV1.cancelSync (some kb) s (HttpOutcome.thrown st)).state = s ∧
    (OutlookMailSync.cancelSync (some kb) s (HttpOutcome.success data msg)).notices =
      (if data = some true then [Notice.success (t "syncCancelled")]
       else [Notice.error (orFallback msg (t "cancelFailed"))]) ∧
    (OutlookMailSync.cancelSync (some kb) s (HttpOutcome.thrown st)).notices =
      [Notice.error (t "cancelFailed")] ∧
    (OneDriveSync.cancelSync (some kb) s (HttpOutcome.success data msg)).notices =
      (if data = some true then [Notice.success (t "syncCancelled")]
       else [Notice.error (orFallback msg (t "cancelFailed"))]) ∧
    (OneDriveSync.cancelSync (some kb) s (HttpOutcome.thrown st)).notices =
      [Notice.error (t "cancelFailed")] ∧
    (OneDriveSyncV1.cancelSync (some kb) s (HttpOutcome.success data msg)).notices =
      (if data = some true then [Notice.success (t "syncCancelled")]
       else [Notice.error (orFallback msg (t "cancelFailed"))]) ∧
    (OneDriveSyncV1.cancelSync (some kb) s (HttpOutcome.thrown st)).notices =
      [Notice.error (t "cancelFailed")] := by
  refine ⟨?_, rfl, ?_, rfl, ?_, rfl, ?_, rfl, ?_, rfl, ?_, rfl⟩ <;>
    · simp only [OutlookMailSync.cancelSync, OneDriveSync.cancelSync, OneDriveSyncV1.cancelSync]
      split <;> rfl

/-- Claim C1 is false as stated: pressing Sync Now with the email field set
to "not-an-email" (which fails the email-format pattern) still issues the
trigger POST — the click handler reads the raw field values and calls
`triggerSync` unconditionally, without running form validation. -/
theorem claim_C1_counterexample :
    emailFormatValid "not-an-email" = false ∧
    (OutlookMailSync.syncNowClick (some "kb0") (some "not-an-email") (some "Inbox")
        ⟨false, none⟩ (HttpOutcome.success (some true) none)).requests =
      [⟨"POST", "/v1/api/kb/trigger_sync",
        [("kb_id", BodyVal.str "kb0"), ("sync_type", BodyVal.str "outlook"),
         ("email", BodyVal.str "not-an-email"), ("folder_name", BodyVal.str "Inbox")]⟩] := by
  constructor
  · decide
  · rfl

/-- Claim C1 (amended): for every email value that fails the email-format
pattern, pressing Sync Now with a kb id present still issues exactly one
trigger POST carrying the raw field values; the form-level email rule only
displays a validation message and does not gate the click handler. -/
theorem claim_C1 (kb e : String) (folder : Option String) (s : SyncState)
    (resp : HttpOutcome Bool) (h : emailFormatValid e = false) :
    (OutlookMailSync.syncNowClick (some kb) (some e) folder s resp).requests =
      [⟨"POST", "/v1/api/kb/trigger_sync",
        [("kb_id", BodyVal.str kb), ("sync_type", BodyVal.str "outlook"),
         ("email", BodyVal.str e), ("folder_name", toBodyVal folder)]⟩] := by
  cases resp with
  | success data msg =>
    simp only [OutlookMailSync.syncNowClick, OutlookMailSync.triggerSync, toBodyVal]
    split <;> rfl
  | thrown st => rfl

/-- Witness for `claim_C1` at a concrete invalid email. -/
theorem claim_C1_witness :
    emailFormatValid "nope" = false ∧
    (OutlookMailSync.syncNowClick (some "kb1") (some "nope") none
        ⟨false, none⟩ (HttpOutcome.thrown none)).requests =
      [⟨"POST", "/v1/api/kb/trigger_sync",
        [("kb_id", BodyVal.str "kb1"), ("sync_type", BodyVal.str "outlook"),
         ("email", BodyVal.str "nope"), ("folder_name", BodyVal.undef)]⟩] :=
  ⟨by decide,
   claim_C1 "kb1" "nope" none ⟨false, none⟩ (HttpOutcome.thrown none) (by decide)⟩

/-- Claim C2 is false as stated: in the cloud-drive (OneDrive) variant of
the components file, a thrown 404 from the status endpoint leaves the prior
state unchanged (its catch block only logs), rather than resetting it to
not-syncing as the claim asserts for every widget variant. -/
theorem claim_C2_counterexample :
    (OneDriveSync.checkSyncStatus (some "kb0") ⟨true, some "onedrive"⟩
        (HttpOutcome.thrown (some 404))).state = ⟨true, some "onedrive"⟩ ∧
    (OneDriveSync.checkSyncStatus (some "kb0") ⟨true, some "onedrive"⟩
        (HttpOutcome.thrown (some 404))).state ≠ ⟨false, none⟩ := by
  constructor
  · rfl
  · decide

/-- Claim C2 (amended): only the mail-folder (Outlook) status poller maps a
thrown 404 to `syncing = false, syncType = none`; a non-404 thrown error
leaves its prior state unchanged. Both cloud-drive variants leave the prior
state unchanged on every thrown error, 404 included. No variant's status
poller ever shows a notification. -/
theorem claim_C2 (kb : String) (s : SyncState) (st : Option Nat)
    (resp : HttpOutcome StatusPayload) :
    (OutlookMailSync.checkSyncStatus (some kb) s (HttpOutcome.thrown st)).state =
      (if st = some 404 then ⟨false, none⟩ else s) ∧
    (OutlookMailSync.checkSyncStatus (some kb) s resp).notices = [] ∧
    (OneDriveSync.checkSyncStatus (some kb) s (HttpOutcome.thrown st)).state = s ∧
    (OneDriveSync.checkSyncStatus (some kb) s resp).notices = [] ∧
    (OneDriveSyncV1.checkSyncStatus (some kb) s (HttpOutcome.thrown st)).state = s ∧
    (OneDriveSyncV1.checkSyncStatus (some kb) s resp).notices = [] := by
  refine ⟨?_, ?_, rfl, ?_, rfl, ?_⟩
  · simp only [OutlookMailSync.checkSyncStatus]
    split <;> rfl
  · cases resp with
    | success data msg =>
      cases data with
      | none => rfl
      | some p =>
        simp only [OutlookMailSync.checkSyncStatus]
        split <;> rfl
    | thrown st' =>
      simp only [OutlookMailSync.checkSyncStatus]
      split <;> rfl
  · cases resp with
    | success data msg =>
      cases data with
      | none => rfl
      | some p =>
        simp only [OneDriveSync.checkSyncStatus]
        split <;> rfl
    | thrown st' => rfl
  · cases resp with
    | success data msg =>
      cases data with
      | none => rfl
      | some p =>
        simp only [OneDriveSyncV1.checkSyncStatus]
        split <;> rfl
    | thrown st' => rfl

/-- Claim C4: switching the toggle off while the widget's own provider is
syncing shows the blocking confirmation; declining reverts the toggle to
enabled and issues no cancel request; accepting issues exactly one cancel
POST. Stated for all three widget variants (the cloud-drive variants also
schedule no auto-trigger in this scenario). -/
theorem claim_C4 (kb : String) (confirmAnswer : Bool) (cResp : HttpOutcome Bool)
    (syncEnabled : Bool) (email : Option String) :
    (OutlookMailSync.handleSyncChange (some kb) ⟨true, some "outlook"⟩ false
        confirmAnswer cResp).confirmShown = true ∧
    (OutlookMailSync.handleSyncChange (some kb) ⟨true, some "outlook"⟩ false
        confirmAnswer cResp).cancelRequests =
      (if confirmAnswer = true then
        [⟨"POST", "/v1/api/kb/cancel_sync", [("kb_id", BodyVal.str kb)]⟩] else []) ∧
    (OutlookMailSync.handleSyncChange (some kb) ⟨true, some "outlook"⟩ false
        confirmAnswer cResp).toggleRevertedOn = !confirmAnswer ∧
    (OneDriveSync.handleSyncChange (some kb) ⟨true, some "onedrive"⟩ syncEnabled email false
        confirmAnswer cResp).confirmShown = true ∧
    (OneDriveSync.handleSyncChange (some kb) ⟨true, some "onedrive"⟩ syncEnabled email false
        confirmAnswer cResp).cancelRequests =
      (if confirmAnswer = true then
        [⟨"POST", "/v1/api/kb/cancel_sync", [("kb_id", BodyVal.str kb)]⟩] else []) ∧
    (OneDriveSync.handleSyncChange (some kb) ⟨true, some "onedrive"⟩ syncEnabled email false
        confirmAnswer cResp).toggleRevertedOn = !confirmAnswer ∧
    (OneDriveSync.handleSyncChange (some kb) ⟨true, some "onedrive"⟩ syncEnabled email false
        confirmAnswer cResp).scheduledTriggerDelay = none ∧
    (OneDriveSyncV1.handleSyncChange (some kb) ⟨true, some "onedrive"⟩ syncEnabled email false
        confirmAnswer cResp).confirmShown = true ∧
    (OneDriveSyncV1.handleSyncChange (some kb) ⟨true, some "onedrive"⟩ syncEnabled email false
        confirmAnswer cResp).cancelRequests =
      (if confirmAnswer = true then
        [⟨"POST", "/api/kb/cancel_sync", [("kb_id", BodyVal.str kb)]⟩] else []) ∧
    (OneDriveSyncV1.handleSyncChange (some kb) ⟨true, some "onedrive"⟩ syncEnabled email false
        confirmAnswer cResp).toggleRevertedOn = !confirmAnswer := by
  cases confirmAnswer <;>
    simp [OutlookMailSync.handleSyncChange, OneDriveSync.handleSyncChange,
      OneDriveSyncV1.handleSyncChange, cancelOutlook_requests, cancelOneDrive_requests,
      cancelV1_requests]

/-- Claim C6: with a kb id present, running the polling effect (setup, then
`n` interval ticks, then cleanup, then any `m` further stray ticks) issues
exactly `1 + n` status requests — one immediate check plus one per tick —
and the final runtime holds no timer, so the `m` post-teardown ticks issue
nothing; with the id absent, setup followed by any number of ticks issues no
request and never registers a timer. -/
theorem claim_C6 (kb : String) (n m : Nat) :
    (pollRun (PollEv.setup (some kb) ::
        (List.replicate n PollEv.tick ++
          (PollEv.cleanup :: List.replicate m PollEv.tick)))).reqs = 1 + n ∧
    (pollRun (PollEv.setup (some kb) ::
        (List.replicate n PollEv.tick ++
          (PollEv.cleanup :: List.replicate m PollEv.tick)))).timerKb = none ∧
    (pollRun (PollEv.setup none :: List.replicate n PollEv.tick)).reqs = 0 ∧
    (pollRun (PollEv.setup none :: List.replicate n PollEv.tick)).everTimer = false := by
  have hsetup : pollStep ⟨none, false, 0⟩ (PollEv.setup (some kb)) = ⟨some kb, true, 1⟩ := rfl
  have hclean : pollStep ⟨some kb, true, 1 + n⟩ PollEv.cleanup = ⟨none, true, 1 + n⟩ := rfl
  have h1 : pollRun (PollEv.setup (some kb) ::
      (List.replicate n PollEv.tick ++
        (PollEv.cleanup :: List.replicate m PollEv.tick))) = ⟨none, true, 1 + n⟩ := by
    unfold pollRun
    rw [List.foldl_cons, hsetup, List.foldl_append, pollFold_tick_active,
      List.foldl_cons, hclean, pollFold_tick_clear]
  have hsetup0 : pollStep ⟨none, false, 0⟩ (PollEv.setup none) = ⟨none, false, 0⟩ := rfl
  have h2 : pollRun (PollEv.setup none :: List.replicate n PollEv.tick) =
      ⟨none, false, 0⟩ := by
    unfold pollRun
    rw [List.foldl_cons, hsetup0, pollFold_tick_clear]
  exact ⟨by rw [h1], by rw [h1], by rw [h2], by rw [h2]⟩

/-- Claim C8: in the cloud-drive (OneDrive) variants, flipping the toggle to
enabled while the form value is still disabled with a truthy email schedules
exactly one trigger call after a fixed 1000 ms delay (and a trigger call
with the id present issues exactly one POST); the mail-folder (Outlook)
variant's toggle handler never schedules a trigger in any situation. -/
theorem claim_C8 (kb : String) (s : SyncState) (syncEnabled : Bool)
    (email fp : Option String) (confirmAnswer : Bool) (cResp rb : HttpOutcome Bool)
    (checked : Bool) :
    (OneDriveSync.handleSyncChange (some kb) s syncEnabled email true
        confirmAnswer cResp).scheduledTriggerDelay =
      (if syncEnabled = false ∧ strTruthy email = true then some 1000 else none) ∧
    (OneDriveSyncV1.handleSyncChange (some kb) s syncEnabled email true
        confirmAnswer cResp).scheduledTriggerDelay =
      (if syncEnabled = false ∧ strTruthy email = true then some 1000 else none) ∧
    (OneDriveSync.triggerSync (some kb) email fp s rb).requests.length = 1 ∧
    (OneDriveSyncV1.triggerSync (some kb) s rb).requests.length = 1 ∧
    (OutlookMailSync.handleSyncChange (some kb) s checked
        confirmAnswer cResp).scheduledTriggerDelay = none := by
  refine ⟨?_, ?_, ?_, ?_, ?_⟩
  · simp [OneDriveSync.handleSyncChange]
  · simp [OneDriveSyncV1.handleSyncChange]
  · cases rb with
    | success data msg =>
      simp only [OneDriveSync.triggerSync]
      split <;> rfl
    | thrown st => rfl
  · cases rb with
    | success data msg =>
      simp only [OneDriveSyncV1.triggerSync]
      split <;> rfl
    | thrown st => rfl
  · simp only [OutlookMailSync.handleSyncChange]
    split
    · split <;> rfl
    · rfl

/-- Claim C10: switching the toggle off while a sync is in progress for a
different provider (the state's `syncType` differs from this widget's tag)
shows no confirmation, issues no cancel request, does not revert the toggle,
and schedules nothing — in all three widget variants. -/
theorem claim_C10 (kb : String) (tyO tyD : Option String) (confirmAnswer : Bool)
    (cResp : HttpOutcome Bool) (syncEnabled : Bool) (email : Option String)
    (hO : tyO ≠ some "outlook") (hD : tyD ≠ some "onedrive") :
    OutlookMailSync.handleSyncChange (some kb) ⟨true, tyO⟩ false confirmAnswer cResp =
      ⟨false, [], [], false, none⟩ ∧
    OneDriveSync.handleSyncChange (some kb) ⟨true, tyD⟩ syncEnabled email false
        confirmAnswer cResp = ⟨false, [], [], false, none⟩ ∧
    OneDriveSyncV1.handleSyncChange (some kb) ⟨true, tyD⟩ syncEnabled email false
        confirmAnswer cResp = ⟨false, [], [], false, none⟩ := by
  refine ⟨?_, ?_, ?_⟩ <;>
    simp [OutlookMailSync.handleSyncChange, OneDriveSync.handleSyncChange,
      OneDriveSyncV1.handleSyncChange, hO, hD]

/-- Witness for `claim_C10`: the outlook widget toggled off during a
onedrive sync, and a onedrive widget toggled off during an outlook sync. -/
theorem claim_C10_witness :
    OutlookMailSync.handleSyncChange (some "kb1") ⟨true, some "onedrive"⟩ false true
        (HttpOutcome.success (some true) none) = ⟨false, [], [], false, none⟩ ∧
    OneDriveSync.handleSyncChange (some "kb1") ⟨true, some "outlook"⟩ true (some "a@b.com")
        false true (HttpOutcome.success (some true) none) = ⟨false, [], [], false, none⟩ ∧
    OneDriveSyncV1.handleSyncChange (some "kb1") ⟨true, some "outlook"⟩ true (some "a@b.com")
        false true (HttpOutcome.success (some true) none) = ⟨false, [], [], false, none⟩ :=
  claim_C10 "kb1" (some "onedrive") (some "outlook") true
    (HttpOutcome.success (some true) none) true (some "a@b.com") (by decide) (by decide)

end RagflowSync
